import Mathlib

/-!
Verification of the linked-neuron synchronization layer of `pymaid_addons`.

The definitions below are a shallow embedding of
`pymaid_addons/manipulate_and_reupload_catmaid_neurons.py` (and the copy of
`push_all_updates_by_skid` in `pymaid_addons/linked_neuron_tools.py`).
Remote CATMAID API reads are modelled by an environment record carrying the
values those reads would return; remote mutations are modelled as an explicit
list of `Effect`s the run would issue.  Coordinates are modelled as rationals.
-/

namespace PymaidAddons

/-! ### String containment (Python's `pat in s`) -/

/-- `charsStartWith s pat` is true when `pat` is a prefix of `s`
(character-list version of Python's `startswith`). -/
def charsStartWith : List Char → List Char → Bool
  | _, [] => true
  | [], _ :: _ => false
  | c :: cs, p :: ps => c == p && charsStartWith cs ps

/-- `charsContain pat s` is true when `pat` occurs contiguously inside `s`
(character-list version of Python's `pat in s`). -/
def charsContain (pat : List Char) : List Char → Bool
  | [] => pat.isEmpty
  | c :: cs => charsStartWith (c :: cs) pat || charsContain pat cs

/-- Python's substring test `pat in s`. -/
def strContains (s pat : String) : Bool :=
  charsContain pat.data s.data

/-- `add_escapes` from `manipulate_and_reupload_catmaid_neurons.py` lines
1150-1153: escape `(` and `)` with a backslash. -/
def add_escapes (s : String) : String :=
  (s.replace "(" "\\(").replace ")" "\\)"

/-! ### Data model -/

/-- A treenode of a CATMAID skeleton (id, parent pointer, coordinate, radius). -/
structure Node where
  node_id : Nat
  parent_id : Option Nat
  x : ℚ
  y : ℚ
  z : ℚ
  radius : Int
deriving DecidableEq, Repr

/-- A connector (synapse marker) coordinate. -/
structure Connector where
  x : ℚ
  y : ℚ
  z : ℚ
deriving DecidableEq, Repr

/-- An in-memory CATMAID neuron: skeleton id, display name, treenodes,
connectors, and its free-text annotation strings. -/
structure Neuron where
  skeleton_id : Nat
  neuron_name : String
  nodes : List Node
  connectors : List Connector
  annotations : List String
deriving DecidableEq, Repr

/-! ### Uploader: `upload_or_update_neurons` (lines 219-420) -/

/-- The keyword options of `upload_or_update_neurons`. -/
structure UploadOptions where
  linking_relation : String
  annotate_source_neuron : Bool
  import_connectors : Bool
  reuse_existing_connectors : Bool
  refuse_to_update : Bool
  fake : Bool
deriving DecidableEq, Repr

/-- The values the remote CATMAID API would return for the reads issued while
processing one source neuron, plus the operator's answers to the two
confirmation prompts.  `linked_skids` is the result of querying the target
project for skeletons carrying the linking annotation. -/
structure RemoteEnv where
  linked_skids : List Nat
  linked_name : String
  linked_annots : List String
  linked_nid : Nat
  edition_times : List Int
  name_prompt_yes : Bool
  edit_prompt_yes : Bool
  upload_response : Nat
deriving DecidableEq, Repr

/-- A remote mutation call issued against the CATMAID servers. -/
inductive Effect where
  | uploadNeuron (neuron_name : String) (annots : List String)
      (skeleton_id : Option Nat) (neuron_id : Option Nat) (force_id : Bool)
  | addAnnotations (skid : Nat) (annot : String)
deriving DecidableEq, Repr

/-- Result of processing one source neuron inside `upload_or_update_neurons`:
the remote mutations issued, the server responses collected, whether each of
the two confirmation prompts was shown, whether the neuron was skipped by a
`continue`, and the annotations on the in-memory copy at the end of the
iteration. -/
structure StepOut where
  effects : List Effect
  responses : List Nat
  promptedName : Bool
  promptedEdit : Bool
  skipped : Bool
  final_annots : List String
deriving DecidableEq, Repr

/-- The linking-annotation template of lines 248-259. -/
def linking_annotation_target (relation : String) (skid pid : Nat) (server : String) :
    String :=
  if relation = "" then
    "LINKED NEURON - skeleton id " ++ toString skid ++ " in project id "
      ++ toString pid ++ " on server " ++ server
  else
    "LINKED NEURON - " ++ relation ++ " skeleton id " ++ toString skid
      ++ " in project id " ++ toString pid ++ " on server " ++ server

/-- The timestamped annotation appended at lines 282-283 and 337. -/
def updated_from_linked_neuron (start_time : String) : String :=
  "UPDATED FROM LINKED NEURON - " ++ start_time

/-- Python's `min` over a series of edition times (line 315). -/
def minList : List Int → Int
  | [] => 0
  | t :: ts => ts.foldl min t

/-- Whether any treenode of the linked neuron counts as edited: its edition
time differs from the minimum edition time (line 315: `is_edited.any()`). -/
def anyEdited (edition_times : List Int) : Bool :=
  edition_times.any (fun t => t != minList edition_times)

/-- The mutations issued by the `if not fake:` block (lines 350-391): the
`pymaid.upload_neuron` call, and, when `annotate_source_neuron` is set, the
`pymaid.add_annotations` call on the source neuron. -/
def upload_effects (opts : UploadOptions) (env : RemoteEnv)
    (target_pid : Nat) (target_server : String) (source_neuron : Neuron)
    (annots : List String) (skid nid : Option Nat) (force_id : Bool) :
    List Effect × List Nat :=
  if opts.fake then ([], [])
  else
    let base := [Effect.uploadNeuron source_neuron.neuron_name annots
                  skid nid force_id]
    let all := if opts.annotate_source_neuron then
        base ++ [Effect.addAnnotations source_neuron.skeleton_id
          (linking_annotation_target opts.linking_relation env.upload_response
            target_pid target_server)]
      else base
    (all, [env.upload_response])

/-- Lines 275-276: the in-memory copy after stripping every annotation that
contains 'LINKED NEURON'. -/
def strippedAnnots (n : Neuron) : List String :=
  n.annotations.filter (fun annot => !(strContains annot "LINKED NEURON"))

/-- Lines 278-283: the annotations uploaded with a brand-new skeleton — the
stripped list plus the linking annotation and the timestamp annotation. -/
def newUploadAnnots (opts : UploadOptions) (source_pid : Nat)
    (source_server start_time : String) (n : Neuron) : List String :=
  strippedAnnots n
    ++ [linking_annotation_target opts.linking_relation n.skeleton_id source_pid
          source_server,
        updated_from_linked_neuron start_time]

/-- Lines 335-341: the annotations uploaded in the update path — the stripped
list plus the timestamp annotation, extended with every annotation of the
existing target neuron not already present. -/
def updateUploadAnnots (start_time : String) (n : Neuron) (env : RemoteEnv) :
    List String :=
  (strippedAnnots n ++ [updated_from_linked_neuron start_time])
    ++ env.linked_annots.filter
        (fun a =>
          !((strippedAnnots n ++ [updated_from_linked_neuron start_time]).contains a))

/-- One iteration of the `for source_neuron in neurons:` loop of
`upload_or_update_neurons` (lines 238-393), with remote reads and prompt
answers supplied by `env`. -/
def upload_or_update_one (opts : UploadOptions) (source_pid : Nat)
    (source_server : String) (target_pid : Nat) (target_server : String)
    (start_time : String) (source_neuron : Neuron) (env : RemoteEnv) :
    StepOut :=
  if env.linked_skids.length == 0 then
    -- Lines 278-283: upload as a new skeleton
    { effects := (upload_effects opts env target_pid target_server
        source_neuron
        (newUploadAnnots opts source_pid source_server start_time
          source_neuron) none none false).1,
      responses := (upload_effects opts env target_pid target_server
        source_neuron
        (newUploadAnnots opts source_pid source_server start_time
          source_neuron) none none false).2,
      promptedName := false, promptedEdit := false, skipped := false,
      final_annots := newUploadAnnots opts source_pid source_server
        start_time source_neuron }
  else if env.linked_skids.length != 1 then
    -- Lines 284-287: the source prints 'Skipping upload for this neuron.'
    -- but contains no `continue`, so control still reaches the
    -- `if not fake:` upload block below with skid_to_update = None.
    { effects := (upload_effects opts env target_pid target_server
        source_neuron (strippedAnnots source_neuron) none none false).1,
      responses := (upload_effects opts env target_pid target_server
        source_neuron (strippedAnnots source_neuron) none none false).2,
      promptedName := false, promptedEdit := false, skipped := false,
      final_annots := strippedAnnots source_neuron }
  -- Lines 288-348: update the unique linked neuron in place
  else if !(source_neuron.neuron_name == env.linked_name)
      && !env.name_prompt_yes then
    -- Lines 298-305: name mismatch prompt, refusal skips this neuron
    { effects := [], responses := [], promptedName := true,
      promptedEdit := false, skipped := true,
      final_annots := strippedAnnots source_neuron }
  else if anyEdited env.edition_times && !env.edit_prompt_yes then
    -- Lines 312-329: edited-node prompt, refusal skips this neuron
    { effects := [], responses := [],
      promptedName := !(source_neuron.neuron_name == env.linked_name),
      promptedEdit := true, skipped := true,
      final_annots := strippedAnnots source_neuron }
  else if opts.refuse_to_update then
    -- Lines 331-333
    { effects := [], responses := [],
      promptedName := !(source_neuron.neuron_name == env.linked_name),
      promptedEdit := anyEdited env.edition_times, skipped := true,
      final_annots := strippedAnnots source_neuron }
  else
    -- Lines 335-348: append the timestamp annotation, copy back the target
    -- neuron's annotations, and prepare a forced-id update
    { effects := (upload_effects opts env target_pid target_server
        source_neuron (updateUploadAnnots start_time source_neuron env)
        (some (env.linked_skids.headD 0)) (some env.linked_nid) true).1,
      responses := (upload_effects opts env target_pid target_server
        source_neuron (updateUploadAnnots start_time source_neuron env)
        (some (env.linked_skids.headD 0)) (some env.linked_nid) true).2,
      promptedName := !(source_neuron.neuron_name == env.linked_name),
      promptedEdit := anyEdited env.edition_times, skipped := false,
      final_annots := updateUploadAnnots start_time source_neuron env }

/-- The whole of `upload_or_update_neurons`: fold the per-neuron step over the
input list, collecting issued mutations and server responses.  (The post-batch
unlinked-connector re-scan of lines 401-418 only reads and prints, and is run
only when `fake` is false.) -/
def upload_or_update_neurons (opts : UploadOptions) (source_pid : Nat)
    (source_server : String) (target_pid : Nat) (target_server : String)
    (start_time : String) (items : List (Neuron × RemoteEnv)) :
    List Effect × List Nat :=
  items.foldl
    (fun acc item =>
      let r := upload_or_update_one opts source_pid source_server target_pid
        target_server start_time item.1 item.2
      (acc.1 ++ r.effects, acc.2 ++ r.responses))
    ([], [])

/-! ### Link dispatch: `push_all_updates_by_skid` (lines 87-175, duplicated in
`linked_neuron_tools.py` lines 49-137) -/

/-- The `link_types` dictionary keys, in Python insertion order
(lines 105-116).  The fifth entry keeps the backslash-escapes that the source
insists on (`Note that the \ MUST be included`). -/
def link_type_keys : List String :=
  ["copy of",
   "translation of",
   "elastic transformation of",
   "elastic transformation and flipped of",
   "pruned \\(first entry, last exit\\) by vol 109 of",
   "radius pruned of"]

/-- Lines 136-138: select the target-project annotations that mention the
source skeleton id and the source project id, and escape them. -/
def target_annots_for_skid (all_target_annots : List String)
    (source_skid source_pid : Nat) : List String :=
  (all_target_annots.filter (fun annot =>
      strContains annot ("skeleton id " ++ toString source_skid ++ " ") &&
      strContains annot ("project id " ++ toString source_pid ++ " "))).map
    add_escapes

/-- The `for linking_relation in link_types:` loop of lines 154-167, recorded
as the list of relation keywords whose transform gets invoked for one
annotation.  Note the loop body has no `break`: it fires once per matching
keyword. -/
def dispatch_loop (target_annot : String) : List String → List String
  | [] => []
  | k :: ks =>
    if strContains target_annot k then k :: dispatch_loop target_annot ks
    else dispatch_loop target_annot ks

/-- Lines 142-167: processing of one candidate linking annotation, given the
result of the target-project skeleton query for it (and `skip_dates = []`).
Zero matching skeletons: silently continue.  More than one: warn and continue.
Exactly one: run the dispatch loop. -/
def invoked_relations (target_skids : List Nat) (target_annot : String) :
    List String :=
  if target_skids.length == 0 then []
  else if target_skids.length != 1 then []
  else dispatch_loop target_annot link_type_keys

/-! ### Geometric transform functions -/

/-- Body of the `for neuron in neurons:` loop of
`get_translated_neurons_by_skid` (lines 583-593): shift every node and
connector coordinate by the translation vector and tag the display name. -/
def get_translated_neuron (translation : ℚ × ℚ × ℚ) (n : Neuron) : Neuron :=
  { n with
    nodes := n.nodes.map (fun nd =>
      { nd with x := nd.x + translation.1, y := nd.y + translation.2.1,
                z := nd.z + translation.2.2 }),
    connectors := n.connectors.map (fun c =>
      { c with x := c.x + translation.1, y := c.y + translation.2.1,
               z := c.z + translation.2.2 }),
    neuron_name := n.neuron_name ++ " - translated" }

/-- The arithmetic performed by `node_coords.dot(T)` on one row (lines
659-676): the row vector `[x, y, z, 1]` times the 4x4 matrix `T`, keeping the
first three components. -/
def affine_apply (T : Matrix (Fin 4) (Fin 4) ℚ) (x y z : ℚ) : ℚ × ℚ × ℚ :=
  (x * T 0 0 + y * T 1 0 + z * T 2 0 + 1 * T 3 0,
   x * T 0 1 + y * T 1 1 + z * T 2 1 + 1 * T 3 1,
   x * T 0 2 + y * T 1 2 + z * T 2 2 + 1 * T 3 2)

/-- Body of the loop of `get_affinetransformed_neurons_by_skid`
(lines 658-679): apply `affine_apply` to every node and connector coordinate
and tag the display name (note the double space in the source's suffix). -/
def get_affinetransformed_neuron (T : Matrix (Fin 4) (Fin 4) ℚ) (n : Neuron) :
    Neuron :=
  { n with
    nodes := n.nodes.map (fun nd =>
      let p := affine_apply T nd.x nd.y nd.z
      { nd with x := p.1, y := p.2.1, z := p.2.2 }),
    connectors := n.connectors.map (fun c =>
      let p := affine_apply T c.x c.y c.z
      { c with x := p.1, y := p.2.1, z := p.2.2 }),
    neuron_name := n.neuron_name ++ " -  affine transform" }

/-- Modelled from the spec: the affine transform as section 4.3 and 6 word it,
namely right-multiplying the homogeneous row vector `[x, y, z, 1]` by the 4x4
matrix and keeping the first three components.  Compared against
`affine_apply`, which is translated from the pandas `.dot` code. -/
def affine_spec_map (T : Matrix (Fin 4) (Fin 4) ℚ) (x y z : ℚ) : ℚ × ℚ × ℚ :=
  let v := Matrix.vecMul ![x, y, z, 1] T
  (v 0, v 1, v 2)

/-- Body of the transform loop of `get_elastictransformed_neurons_by_skid`
(lines 797-806).  The warp itself is the `transform` argument in the source
(an external subprocess by default), so it is a function parameter here; the
y-cutoff prefilter of lines 786-795 is not modelled (no claim concerns it). -/
def get_elastictransformed_neuron (transform : ℚ × ℚ × ℚ → ℚ × ℚ × ℚ)
    (left_right_flip include_connectors : Bool) (n : Neuron) : Neuron :=
  let name1 := n.neuron_name ++ " - elastic transform"
  let name2 := if left_right_flip then name1 ++ " - flipped" else name1
  let annots := if left_right_flip then
      n.annotations ++ ["left-right flipped"]
    else n.annotations
  { n with
    neuron_name := name2,
    annotations := annots,
    nodes := n.nodes.map (fun nd =>
      let p := transform (nd.x, nd.y, nd.z)
      { nd with x := p.1, y := p.2.1, z := p.2.2 }),
    connectors := if include_connectors then
        n.connectors.map (fun c =>
          let p := transform (c.x, c.y, c.z)
          { c with x := p.1, y := p.2.1, z := p.2.2 })
      else n.connectors }

/-- The audit annotation appended by `get_volume_pruned_neurons_by_skid`
(lines 1045-1048), depending on the pruning mode. -/
def volumeAudit (volume_id : Nat) (mode : String) (annots : List String) :
    List String :=
  if mode == "fele" then
    annots ++ ["pruned (first entry, last exit) by vol " ++ toString volume_id]
  else if mode == "strict" then
    annots ++ ["pruned (strict) by vol " ++ toString volume_id]
  else annots

/-- Body of the loop of `get_volume_pruned_neurons_by_skid` (lines 966-1052):
the guard against double pruning (lines 967-971), then the audit annotation
(lines 1045-1048) and the name suffix (line 1050).  The geometric walk and the
`prune_distal_to`/`prune_proximal_to`/`prune_by_volume` calls are modelled by
the `pruneNodes` parameter: no claim concerns which nodes survive. -/
def get_volume_pruned_neuron (pruneNodes : List Node → List Node)
    (volume_id : Nat) (mode : String) (n : Neuron) : Except String Neuron :=
  if strContains n.neuron_name "pruned by vol" then
    Except.error ("Volume pruning was requested for " ++ n.neuron_name)
  else
    Except.ok { n with
      nodes := pruneNodes n.nodes,
      annotations := volumeAudit volume_id mode n.annotations,
      neuron_name := n.neuron_name ++ " - pruned by vol " ++ toString volume_id }

/-- The node selection of line 1130: keep nodes whose radius meets the
threshold. -/
def radiusKeep (radius_to_keep : Int) (nodes : List Node) : List Node :=
  nodes.filter (fun nd => decide (radius_to_keep ≤ nd.radius))

/-- `navis.subset_neuron`: keep exactly the nodes whose id is in `keptIds`;
a kept node whose parent was discarded becomes a root. -/
def subsetNodes (keptIds : List Nat) (nodes : List Node) : List Node :=
  (nodes.filter (fun nd => keptIds.contains nd.node_id)).map (fun nd =>
    { nd with parent_id := match nd.parent_id with
        | some p => if keptIds.contains p then some p else none
        | none => none })

/-- Number of connected fragments after subsetting: one per root. -/
def n_skeletons (nodes : List Node) : Nat :=
  (nodes.filter (fun nd => nd.parent_id.isNone)).length

/-- The node set produced by the `navis.subset_neuron` call of lines
1127-1136: subset the neuron to the ids of the nodes meeting the radius
threshold (`==` when `keep_larger_radii` is false, `>=` when true). -/
def prunedRadiusNodes (radius_to_keep : Int) (keep_larger_radii : Bool)
    (n : Neuron) : List Node :=
  subsetNodes
    ((if keep_larger_radii then radiusKeep radius_to_keep n.nodes
      else n.nodes.filter (fun nd => decide (nd.radius = radius_to_keep))).map
      (fun nd => nd.node_id))
    n.nodes

/-- Body of the loop of `get_radius_pruned_neurons_by_skid` (lines 1121-1145):
guard against double pruning (the name already contains 'radius'), subset to
the nodes meeting the radius threshold, guard against fragmentation, then
append the audit annotation and the name suffix. -/
def get_radius_pruned_one (radius_to_keep : Int) (keep_larger_radii : Bool)
    (n : Neuron) : Except String Neuron :=
  if strContains n.neuron_name "radius" then
    Except.error ("Radius pruning was requested for " ++ n.neuron_name)
  else if 1 < n_skeletons (prunedRadiusNodes radius_to_keep keep_larger_radii n) then
    Except.error ("You cut " ++ n.neuron_name ++ " into two fragments.")
  else
    Except.ok { n with
      nodes := prunedRadiusNodes radius_to_keep keep_larger_radii n,
      annotations := n.annotations ++ ["pruned to nodes with radius 500"],
      neuron_name := n.neuron_name ++ " - radius " ++ toString radius_to_keep }

/-! ### Theorems -/

/-- Helper: with `fake = true`, one uploader iteration issues no remote
mutation and collects no server response. -/
theorem upload_one_fake (rel : String) (an ic rc ru : Bool) (sp : Nat)
    (ss : String) (tp : Nat) (ts t : String) (n : Neuron) (env : RemoteEnv) :
    (upload_or_update_one ⟨rel, an, ic, rc, ru, true⟩ sp ss tp ts t n
      env).effects = [] ∧
    (upload_or_update_one ⟨rel, an, ic, rc, ru, true⟩ sp ss tp ts t n
      env).responses = [] := by
  simp only [upload_or_update_one, upload_effects]
  split_ifs <;> simp

/-- C1: with the dry-run flag enabled (`fake=True`), `upload_or_update_neurons`
issues no remote mutation call whatsoever — no skeleton upload and no
annotation addition — for any list of input neurons, any option setting and
any remote state, and it returns the empty list of server responses as a
normal result. -/
theorem dry_run_issues_no_mutations (rel : String) (an ic rc ru : Bool)
    (sp : Nat) (ss : String) (tp : Nat) (ts t : String)
    (items : List (Neuron × RemoteEnv)) :
    upload_or_update_neurons ⟨rel, an, ic, rc, ru, true⟩ sp ss tp ts t items
      = ([], []) := by
  have key : ∀ (l : List (Neuron × RemoteEnv)) (acc : List Effect × List Nat),
      l.foldl (fun acc item =>
        let r := upload_or_update_one ⟨rel, an, ic, rc, ru, true⟩ sp ss tp ts t
          item.1 item.2
        (acc.1 ++ r.effects, acc.2 ++ r.responses)) acc = acc := by
    intro l
    induction l with
    | nil => intro acc; rfl
    | cons hd tl ih =>
      intro acc
      have h := upload_one_fake rel an ic rc ru sp ss tp ts t hd.1 hd.2
      simp only [List.foldl_cons, h.1, h.2, List.append_nil]
      exact ih acc
  exact key items ([], [])

/-- C5: when the linking annotation matches zero skeletons in the target
project, the neuron is treated as a new upload (skeleton id `none`, no forced
id) and exactly two annotations are appended to the in-memory copy after the
'LINKED NEURON' strip: the linking annotation itself and the timestamped
'UPDATED FROM LINKED NEURON' annotation. -/
theorem new_upload_appends_exactly_two (rel : String) (an ic rc ru : Bool)
    (sp : Nat) (ss : String) (tp : Nat) (ts t : String) (n : Neuron)
    (ln : String) (la : List String) (nid : Nat) (et : List Int)
    (b1 b2 : Bool) (ur : Nat) :
    (upload_or_update_one ⟨rel, an, ic, rc, ru, false⟩ sp ss tp ts t n
        ⟨[], ln, la, nid, et, b1, b2, ur⟩).final_annots =
      n.annotations.filter (fun a => !(strContains a "LINKED NEURON"))
        ++ [linking_annotation_target rel n.skeleton_id sp ss,
            updated_from_linked_neuron t] ∧
    (upload_or_update_one ⟨rel, an, ic, rc, ru, false⟩ sp ss tp ts t n
        ⟨[], ln, la, nid, et, b1, b2, ur⟩).effects.head? =
      some (Effect.uploadNeuron n.neuron_name
        (n.annotations.filter (fun a => !(strContains a "LINKED NEURON"))
          ++ [linking_annotation_target rel n.skeleton_id sp ss,
              updated_from_linked_neuron t])
        none none false) := by
  cases an <;>
    simp [upload_or_update_one, upload_effects, newUploadAnnots,
      strippedAnnots, List.append_assoc]

/-- Options used to exhibit the fall-through in the multiple-match branch:
`fake=False`, everything else off. -/
def c2_opts : UploadOptions := ⟨"", false, false, true, false, false⟩

/-- Remote state used to exhibit the fall-through: two target skeletons carry
the linking annotation. -/
def c2_env : RemoteEnv := ⟨[10, 11], "x", [], 77, [], true, true, 5⟩

/-- Source neuron used to exhibit the fall-through. -/
def c2_nrn : Neuron :=
  ⟨3, "nrnA", [], [],
   ["LINKED NEURON - skeleton id 9 in project id 1 on server S"]⟩

/-- C2: the code prints 'Skipping upload for this neuron.' when more than one
target skeleton carries the linking annotation, but the branch contains no
`continue`, so with `fake=False` control falls through to the upload block and
`pymaid.upload_neuron` IS called — creating a fresh unlinked skeleton —
contradicting both the spec and the code's own message.  This theorem
evaluates the model at such an input and shows an upload mutation is issued
and the neuron is not skipped. -/
theorem multi_match_still_uploads :
    (upload_or_update_one c2_opts 1 "S" 2 "T" "2020-01-01" c2_nrn
      c2_env).effects =
      [Effect.uploadNeuron "nrnA" [] none none false] ∧
    (upload_or_update_one c2_opts 1 "S" 2 "T" "2020-01-01" c2_nrn
      c2_env).skipped = false := by
  constructor <;> rfl

/-- C8: translating by `t1` and then by `t2` produces exactly the same node
and connector coordinates as translating once by `t1 + t2`. -/
theorem translation_composition (t1 t2 : ℚ × ℚ × ℚ) (n : Neuron) :
    (get_translated_neuron t2 (get_translated_neuron t1 n)).nodes =
      (get_translated_neuron (t1.1 + t2.1, t1.2.1 + t2.2.1, t1.2.2 + t2.2.2)
        n).nodes ∧
    (get_translated_neuron t2 (get_translated_neuron t1 n)).connectors =
      (get_translated_neuron (t1.1 + t2.1, t1.2.1 + t2.2.1, t1.2.2 + t2.2.2)
        n).connectors := by
  constructor <;>
  · simp only [get_translated_neuron, List.map_map]
    refine List.map_congr_left fun a _ => ?_
    simp [Function.comp, add_assoc]

/-- Helper for C9: the row-times-matrix arithmetic of the pandas `.dot` call
agrees with the spec's homogeneous-row-vector formulation. -/
theorem affine_apply_eq_spec (T : Matrix (Fin 4) (Fin 4) ℚ) (x y z : ℚ) :
    affine_spec_map T x y z = affine_apply T x y z := by
  simp [affine_spec_map, affine_apply, Matrix.vecMul, Matrix.dotProduct,
    Fin.sum_univ_four]

/-- C9: the affine transform maps every node coordinate and every connector
coordinate `(x,y,z)` to the first three components of `[x,y,z,1] * T`, and the
very same mapping is applied to nodes and to connectors. -/
theorem affine_matches_homogeneous_rowvec (T : Matrix (Fin 4) (Fin 4) ℚ)
    (n : Neuron) :
    ((get_affinetransformed_neuron T n).nodes.map
        (fun nd => (nd.x, nd.y, nd.z)) =
      n.nodes.map (fun nd => affine_spec_map T nd.x nd.y nd.z)) ∧
    ((get_affinetransformed_neuron T n).connectors.map
        (fun c => (c.x, c.y, c.z)) =
      n.connectors.map (fun c => affine_spec_map T c.x c.y c.z)) := by
  constructor <;>
  · simp only [get_affinetransformed_neuron, List.map_map]
    refine List.map_congr_left fun a _ => ?_
    simp [affine_apply_eq_spec, Function.comp]

/-- An annotation that passes the link filters and contains two relation
keywords ('copy of' and 'translation of') as substrings. -/
def c3_annot : String :=
  "LINKED NEURON - copy of translation of skeleton id 1 in project id 1 on server S"

/-- C3 counterexample: the dispatch loop of `push_all_updates_by_skid` has no
`break`, so for an annotation containing two relation keywords it invokes a
transform for each of them — not exactly one as the claim states. -/
theorem dispatch_fires_multiple_keywords :
    ¬ ((invoked_relations [7] c3_annot).length = 1) := by
  decide

/-- Helper: the dispatch loop invokes exactly the matching keywords, in the
order of the `link_types` dictionary. -/
theorem dispatch_loop_eq_filter (annot : String) (ks : List String) :
    dispatch_loop annot ks = ks.filter (fun k => strContains annot k) := by
  induction ks with
  | nil => rfl
  | cons k ks ih =>
    simp only [dispatch_loop, List.filter_cons]
    split <;> simp [ih]

/-- C3 amended: for a linking annotation whose target-project query returns
exactly one skeleton, `push_all_updates_by_skid` invokes one transform per
relation keyword occurring in the annotation, in the fixed dictionary order —
every matching keyword fires, not only the first; in particular when exactly
one keyword occurs, exactly one transform is invoked. -/
theorem dispatch_invokes_every_matching_keyword (target_skids : List Nat)
    (annot : String) (h : target_skids.length = 1) :
    invoked_relations target_skids annot =
      link_type_keys.filter (fun k => strContains annot k) := by
  simp [invoked_relations, h, dispatch_loop_eq_filter]

/-- Witness for the amended C3 theorem at a concrete single-match query. -/
theorem dispatch_invokes_every_matching_keyword_witness :
    ([7] : List Nat).length = 1 ∧
    invoked_relations [7] c3_annot =
      link_type_keys.filter (fun k => strContains c3_annot k) :=
  ⟨by decide, dispatch_invokes_every_matching_keyword [7] c3_annot (by decide)⟩

/-- Options used for the C6 counterexample: real run, updates allowed. -/
def c6_opts : UploadOptions := ⟨"", false, false, true, false, false⟩

/-- Remote state for the C6 counterexample: a unique linked match whose name
differs from the expected one, and whose treenodes all share one edition
time (no manual edit). -/
def c6_env : RemoteEnv := ⟨[5], "otherName", [], 42, [7, 7], true, true, 9⟩

/-- Source neuron for the C6 counterexample. -/
def c6_nrn : Neuron := ⟨3, "myName", [], [], []⟩

/-- C6 counterexample: with a unique linked match, no edited treenodes, but a
mismatched neuron name, the update still requires a human confirmation (the
name-mismatch prompt of lines 298-305), so 'the overwrite proceeds without
human confirmation if and only if no treenode was edited' is false on the
code. -/
theorem edit_check_iff_fails :
    ¬ ((((upload_or_update_one c6_opts 1 "S" 2 "T" "t0" c6_nrn c6_env).skipped
          = false) ∧
        ((upload_or_update_one c6_opts 1 "S" 2 "T" "t0" c6_nrn
            c6_env).promptedName = false) ∧
        ((upload_or_update_one c6_opts 1 "S" 2 "T" "t0" c6_nrn
            c6_env).promptedEdit = false)) ↔
       anyEdited c6_env.edition_times = false) := by
  decide

/-- C6 amended: in the update path (exactly one linked match) and provided the
linked neuron's name matches the expected name (otherwise a separate
name-mismatch prompt intervenes) and `refuse_to_update` is off, the
edited-node confirmation prompt is shown exactly when some treenode's edition
time differs from the minimum edition time; with no such node the update
proceeds with no prompt at all, and a refusal at the prompt skips the neuron,
issuing no mutation. -/
theorem edit_check_governs_confirmation (rel : String) (an ic rc fk : Bool)
    (sp : Nat) (ss : String) (tp : Nat) (ts t : String) (n : Neuron)
    (env : RemoteEnv) (h1 : env.linked_skids.length = 1)
    (h2 : n.neuron_name = env.linked_name) :
    ((upload_or_update_one ⟨rel, an, ic, rc, false, fk⟩ sp ss tp ts t n
        env).promptedName = false) ∧
    ((upload_or_update_one ⟨rel, an, ic, rc, false, fk⟩ sp ss tp ts t n
        env).promptedEdit = anyEdited env.edition_times) ∧
    (anyEdited env.edition_times = false →
      (upload_or_update_one ⟨rel, an, ic, rc, false, fk⟩ sp ss tp ts t n
        env).skipped = false) ∧
    (anyEdited env.edition_times = true → env.edit_prompt_yes = false →
      (upload_or_update_one ⟨rel, an, ic, rc, false, fk⟩ sp ss tp ts t n
        env).skipped = true ∧
      (upload_or_update_one ⟨rel, an, ic, rc, false, fk⟩ sp ss tp ts t n
        env).effects = []) := by
  have e2 : (n.neuron_name == env.linked_name) = true := by simp [h2]
  cases hE : anyEdited env.edition_times <;>
    cases hY : env.edit_prompt_yes <;>
      simp [upload_or_update_one, upload_effects, h1, e2, hE, hY]

/-- Remote state for the C6 witness: matching name, one node edited later
than the other, operator refuses. -/
def c6w_env : RemoteEnv := ⟨[8], "same", ["a"], 2, [1, 3], true, false, 4⟩

/-- Source neuron for the C6 witness. -/
def c6w_nrn : Neuron := ⟨9, "same", [], [], []⟩

/-- Witness for the amended C6 theorem: a refused edit prompt skips the
update and issues no mutation. -/
theorem edit_check_governs_confirmation_witness :
    c6w_env.linked_skids.length = 1 ∧
    c6w_nrn.neuron_name = c6w_env.linked_name ∧
    anyEdited c6w_env.edition_times = true ∧
    c6w_env.edit_prompt_yes = false ∧
    ((upload_or_update_one ⟨"", false, false, true, false, false⟩ 1 "S" 2 "T"
        "t0" c6w_nrn c6w_env).skipped = true ∧
     (upload_or_update_one ⟨"", false, false, true, false, false⟩ 1 "S" 2 "T"
        "t0" c6w_nrn c6w_env).effects = []) :=
  ⟨by decide, by decide, by decide, by decide,
   (edit_check_governs_confirmation "" false false true false 1 "S" 2 "T" "t0"
      c6w_nrn c6w_env (by decide) (by decide)).2.2.2 (by decide) (by decide)⟩

/-! ### Substring lemmas used for the pruning guards -/

theorem charsContain_nil (l : List Char) : charsContain [] l = true := by
  cases l <;> simp [charsContain, charsStartWith]

theorem charsStartWith_append (pat s ys : List Char)
    (h : charsStartWith s pat = true) :
    charsStartWith (s ++ ys) pat = true := by
  induction pat generalizing s with
  | nil => simp [charsStartWith]
  | cons p ps ih =>
    cases s with
    | nil => simp [charsStartWith] at h
    | cons c cs =>
      simp only [charsStartWith, Bool.and_eq_true] at h
      simp only [List.cons_append, charsStartWith, Bool.and_eq_true]
      exact ⟨h.1, ih cs h.2⟩

theorem charsContain_append_right (pat xs ys : List Char)
    (h : charsContain pat xs = true) :
    charsContain pat (xs ++ ys) = true := by
  induction xs with
  | nil =>
    have hp : pat = [] := by
      simpa [charsContain, List.isEmpty_iff] using h
    subst hp
    exact charsContain_nil ys
  | cons c cs ih =>
    simp only [charsContain, Bool.or_eq_true] at h
    simp only [List.cons_append, charsContain, Bool.or_eq_true]
    rcases h with h | h
    · exact Or.inl (charsStartWith_append pat (c :: cs) ys h)
    · exact Or.inr (ih h)

theorem charsContain_append_left (pat xs ys : List Char)
    (h : charsContain pat ys = true) :
    charsContain pat (xs ++ ys) = true := by
  induction xs with
  | nil => exact h
  | cons c cs ih =>
    simp only [List.cons_append, charsContain, Bool.or_eq_true]
    exact Or.inr ih

/-- Appending ' - radius <R>' to a display name always makes it contain the
substring 'radius', so the double-pruning guard of line 1122 fires on any
neuron produced by a previous radius pruning. -/
theorem strContains_radius_suffix (nm : String) (R : Int) :
    strContains (nm ++ " - radius " ++ toString R) "radius" = true := by
  unfold strContains
  rw [String.data_append, String.data_append, List.append_assoc]
  apply charsContain_append_left
  apply charsContain_append_right
  decide

/-- Neuron used for the C7 counterexample (one fat node, one thin node). -/
def c7_nrn : Neuron :=
  ⟨1, "nrn7", [⟨1, none, 0, 0, 0, 500⟩, ⟨2, some 1, 1, 1, 1, 100⟩], [], []⟩

/-- C7 counterexample: applying the radius-pruning operation to a neuron it
has already pruned does not return the same node set — it raises (the name
now contains 'radius', tripping the guard of lines 1122-1126), so the
operation as implemented is not idempotent. -/
theorem radius_prune_reprune_errors :
    (get_radius_pruned_one 500 true c7_nrn).toOption ≠ none ∧
    ((get_radius_pruned_one 500 true c7_nrn).bind
      (get_radius_pruned_one 500 true)).toOption = none := by
  constructor
  · decide
  · decide

/-- Helper: with node ids unique, every node surviving the radius subset
meets the radius threshold, so re-filtering the pruned node set keeps all of
it. -/
theorem radiusKeep_pruned (R : Int) (n : Neuron)
    (hids : (n.nodes.map (fun nd => nd.node_id)).Nodup) :
    radiusKeep R (prunedRadiusNodes R true n) = prunedRadiusNodes R true n := by
  apply List.filter_eq_self.mpr
  intro nd hnd
  unfold prunedRadiusNodes subsetNodes at hnd
  rw [List.mem_map] at hnd
  obtain ⟨b, hb, hb_eq⟩ := hnd
  rw [List.mem_filter] at hb
  obtain ⟨hb_mem, hb_id⟩ := hb
  rw [if_pos rfl] at hb_id
  have hb_id' : b.node_id ∈ (radiusKeep R n.nodes).map (fun nd => nd.node_id) := by
    simpa [List.elem_iff] using hb_id
  rw [List.mem_map] at hb_id'
  obtain ⟨b', hb', hb'_eq⟩ := hb_id'
  rw [radiusKeep, List.mem_filter] at hb'
  obtain ⟨hb'_mem, hb'_rad⟩ := hb'
  have hbb : b' = b := List.inj_on_of_nodup_map hids hb'_mem hb_mem hb'_eq
  have hrad : nd.radius = b.radius := by rw [← hb_eq]
  rw [hrad, ← hbb]
  exact hb'_rad

/-- C7 amended: the node-selection step of radius pruning (keep nodes with
radius >= R) is idempotent — re-filtering the pruned node set changes
nothing, so the surviving node set is a fixed point of the selection — but
the full `get_radius_pruned_neurons_by_skid` operation refuses to run on an
already-pruned neuron: its display name now contains 'radius', so a second
application raises instead of returning the same node set. -/
theorem radius_prune_idempotent_amended (R : Int) (n m : Neuron)
    (hids : (n.nodes.map (fun nd => nd.node_id)).Nodup)
    (h : get_radius_pruned_one R true n = Except.ok m) :
    radiusKeep R m.nodes = m.nodes ∧
    (get_radius_pruned_one R true m).toOption = none := by
  unfold get_radius_pruned_one at h
  split at h
  · exact absurd h (by simp)
  · split at h
    · exact absurd h (by simp)
    · have hm : ({ n with
          nodes := prunedRadiusNodes R true n,
          annotations := n.annotations ++ ["pruned to nodes with radius 500"],
          neuron_name := n.neuron_name ++ " - radius " ++ toString R } : Neuron)
          = m := by
        simpa using h
      constructor
      · rw [← hm]
        exact radiusKeep_pruned R n hids
      · rw [← hm]
        simp [get_radius_pruned_one, strContains_radius_suffix, Except.toOption]

/-- Neuron used for the C7 witness. -/
def c7w_nrn : Neuron := ⟨7, "w7", [⟨1, none, 0, 0, 0, 500⟩], [], []⟩

/-- The neuron `get_radius_pruned_one 500 true c7w_nrn` produces. -/
def c7w_pruned : Neuron :=
  ⟨7, "w7 - radius 500", [⟨1, none, 0, 0, 0, 500⟩], [],
   ["pruned to nodes with radius 500"]⟩

/-- Witness for the amended C7 theorem at a concrete neuron. -/
theorem radius_prune_idempotent_amended_witness :
    (c7w_nrn.nodes.map (fun nd => nd.node_id)).Nodup ∧
    get_radius_pruned_one 500 true c7w_nrn = Except.ok c7w_pruned ∧
    (radiusKeep 500 c7w_pruned.nodes = c7w_pruned.nodes ∧
     (get_radius_pruned_one 500 true c7w_pruned).toOption = none) :=
  ⟨by decide, by rfl,
   radius_prune_idempotent_amended 500 c7w_nrn c7w_pruned (by decide)
     (by rfl)⟩

/-- Neuron used for the C4 counterexample. -/
def c4_nrn : Neuron := ⟨4, "n4", [], [], []⟩

/-- C4 counterexample: the translation transform appends no annotation at all
— it only tags the display name — so no audit annotation records that a
translation was applied, refuting the claim for the translation function
(the affine and plain elastic transforms behave the same way). -/
theorem translation_appends_no_audit_annot :
    (get_translated_neuron (1, 2, 3) c4_nrn).annotations = [] ∧
    c4_nrn.annotations = [] ∧
    (get_translated_neuron (1, 2, 3) c4_nrn).neuron_name = "n4 - translated" := by
  exact ⟨rfl, rfl, rfl⟩

/-- C4 amended: every geometric transform function appends a human-readable
suffix to the transformed neuron's display name, but only volume pruning and
radius pruning also append an audit annotation; translation and the affine
transform leave the annotation list unchanged, and the elastic transform adds
only the 'left-right flipped' annotation and only when flipping. -/
theorem transform_audit_trail_facts (t : ℚ × ℚ × ℚ)
    (T : Matrix (Fin 4) (Fin 4) ℚ) (f : ℚ × ℚ × ℚ → ℚ × ℚ × ℚ)
    (inc : Bool) (pr : List Node → List Node) (vid : Nat) (R : Int)
    (n : Neuron) :
    ((get_translated_neuron t n).neuron_name
        = n.neuron_name ++ " - translated" ∧
     (get_translated_neuron t n).annotations = n.annotations) ∧
    ((get_affinetransformed_neuron T n).neuron_name
        = n.neuron_name ++ " -  affine transform" ∧
     (get_affinetransformed_neuron T n).annotations = n.annotations) ∧
    ((get_elastictransformed_neuron f false inc n).neuron_name
        = n.neuron_name ++ " - elastic transform" ∧
     (get_elastictransformed_neuron f false inc n).annotations
        = n.annotations ∧
     (get_elastictransformed_neuron f true inc n).annotations
        = n.annotations ++ ["left-right flipped"]) ∧
    (∀ m, get_volume_pruned_neuron pr vid "fele" n = Except.ok m →
      m.neuron_name = n.neuron_name ++ " - pruned by vol " ++ toString vid ∧
      m.annotations = n.annotations
        ++ ["pruned (first entry, last exit) by vol " ++ toString vid]) ∧
    (∀ m, get_radius_pruned_one R true n = Except.ok m →
      m.neuron_name = n.neuron_name ++ " - radius " ++ toString R ∧
      m.annotations = n.annotations
        ++ ["pruned to nodes with radius 500"]) := by
  refine ⟨⟨rfl, rfl⟩, ⟨rfl, rfl⟩, ⟨rfl, rfl, rfl⟩, ?_, ?_⟩
  · intro m hm
    unfold get_volume_pruned_neuron at hm
    split at hm
    · exact absurd hm (by simp)
    · simp only [Except.ok.injEq] at hm
      rw [← hm]
      exact ⟨rfl, rfl⟩
  · intro m hm
    unfold get_radius_pruned_one at hm
    split at hm
    · exact absurd hm (by simp)
    · split at hm
      · exact absurd hm (by simp)
      · simp only [Except.ok.injEq] at hm
        rw [← hm]
        exact ⟨rfl, rfl⟩

/-- Neuron used for the C4 witness. -/
def c4w_nrn : Neuron := ⟨5, "w4", [⟨1, none, 0, 0, 0, 500⟩], [], []⟩

/-- The neuron `get_radius_pruned_one 500 true c4w_nrn` produces. -/
def c4w_pruned : Neuron :=
  ⟨5, "w4 - radius 500", [⟨1, none, 0, 0, 0, 500⟩], [],
   ["pruned to nodes with radius 500"]⟩

/-- Witness for the amended C4 theorem: the radius-pruning clause discharged
at a concrete neuron. -/
theorem transform_audit_trail_facts_witness :
    get_radius_pruned_one 500 true c4w_nrn = Except.ok c4w_pruned ∧
    (c4w_pruned.neuron_name = c4w_nrn.neuron_name ++ " - radius "
        ++ toString (500 : Int) ∧
     c4w_pruned.annotations = c4w_nrn.annotations
        ++ ["pruned to nodes with radius 500"]) :=
  ⟨by rfl,
   (transform_audit_trail_facts (1, 2, 3) 0 id false id 109 500
      c4w_nrn).2.2.2.2 c4w_pruned (by rfl)⟩

/-- Helper: any `uploadNeuron` mutation issued by the `if not fake:` block
carries exactly the annotation list the in-memory copy held at that point. -/
theorem upload_effect_annots (opts : UploadOptions) (env : RemoteEnv)
    (tp : Nat) (tserv : String) (n : Neuron) (annots : List String)
    (skid nid : Option Nat) (fid : Bool) (name : String)
    (annots' : List String) (skid' nid' : Option Nat) (fid' : Bool)
    (h : Effect.uploadNeuron name annots' skid' nid' fid' ∈
      (upload_effects opts env tp tserv n annots skid nid fid).1) :
    annots' = annots := by
  unfold upload_effects at h
  split at h
  · simp at h
  · cases hA : opts.annotate_source_neuron <;> simp [hA] at h <;> tauto

/-- C10: every annotation carried by an issued skeleton upload that contains
the substring 'LINKED NEURON' is either the freshly constructed linking
annotation for this source-to-target link, the fresh timestamped 'UPDATED
FROM LINKED NEURON' annotation, or an annotation copied back from the
existing target neuron in the update path — never one of the 'LINKED NEURON'
annotations the in-memory source neuron carried at entry, which are all
stripped before any branch runs (lines 275-276), so links pointing at the
source's own upstream sources are not propagated. -/
theorem upload_strips_inherited_links (opts : UploadOptions) (sp : Nat)
    (ss : String) (tp : Nat) (ts t : String) (n : Neuron) (env : RemoteEnv)
    (name : String) (annots : List String) (skid nid : Option Nat)
    (fid : Bool)
    (hup : Effect.uploadNeuron name annots skid nid fid ∈
      (upload_or_update_one opts sp ss tp ts t n env).effects)
    (a : String) (ha : a ∈ annots)
    (hlink : strContains a "LINKED NEURON" = true) :
    a = linking_annotation_target opts.linking_relation n.skeleton_id sp ss ∨
    a = updated_from_linked_neuron t ∨ a ∈ env.linked_annots := by
  have hfil : ∀ x ∈ strippedAnnots n, x ≠ a := by
    intro x hx hxa
    have hx2 := (List.mem_filter.mp hx).2
    rw [hxa, hlink] at hx2
    simp at hx2
  unfold upload_or_update_one at hup
  split at hup
  · -- zero matches: upload as new with the two fresh annotations
    have hA := upload_effect_annots opts env tp ts n _ none none false
      name annots skid nid fid hup
    rw [hA] at ha
    rcases List.mem_append.mp ha with h1 | h2
    · exact absurd rfl (hfil a h1)
    · simp only [List.mem_cons, List.not_mem_nil, or_false] at h2
      rcases h2 with h2 | h2
      · exact Or.inl h2
      · exact Or.inr (Or.inl h2)
  · split at hup
    · -- multiple matches: fall-through upload with only the stripped list
      have hA := upload_effect_annots opts env tp ts n _ none none false
        name annots skid nid fid hup
      rw [hA] at ha
      exact absurd rfl (hfil a ha)
    · -- unique match: update path
      split at hup
      · simp at hup
      · split at hup
        · simp at hup
        · split at hup
          · simp at hup
          · have hA := upload_effect_annots opts env tp ts n _
              (some (env.linked_skids.headD 0)) (some env.linked_nid) true
              name annots skid nid fid hup
            rw [hA] at ha
            rcases List.mem_append.mp ha with h1 | h2
            · rcases List.mem_append.mp h1 with h1a | h1b
              · exact absurd rfl (hfil a h1a)
              · simp only [List.mem_cons, List.not_mem_nil, or_false] at h1b
                exact Or.inr (Or.inl h1b)
            · exact Or.inr (Or.inr (List.mem_filter.mp h2).1)

/-- Source neuron for the C10 witness, carrying an inherited link. -/
def c10_nrn : Neuron :=
  ⟨3, "n10", [], [], ["LINKED NEURON - copy of skeleton id 9 in project id 5 on server U"]⟩

/-- Remote state for the C10 witness: no existing linked neuron. -/
def c10_env : RemoteEnv := ⟨[], "x", ["other"], 6, [], true, true, 12⟩

/-- Witness for the C10 theorem: in a concrete new-skeleton upload, the one
'LINKED NEURON' annotation on the upload is the freshly constructed linking
annotation, and the inherited link from entry is gone. -/
theorem upload_strips_inherited_links_witness :
    (Effect.uploadNeuron "n10"
        [linking_annotation_target "copy of" 3 1 "S", updated_from_linked_neuron "t0"]
        none none false ∈
      (upload_or_update_one ⟨"copy of", false, false, true, true, false⟩ 1 "S"
        2 "T" "t0" c10_nrn c10_env).effects) ∧
    (linking_annotation_target "copy of" 3 1 "S" ∈
      [linking_annotation_target "copy of" 3 1 "S", updated_from_linked_neuron "t0"]) ∧
    (strContains (linking_annotation_target "copy of" 3 1 "S") "LINKED NEURON"
      = true) ∧
    (linking_annotation_target "copy of" 3 1 "S" =
        linking_annotation_target "copy of" c10_nrn.skeleton_id 1 "S" ∨
      linking_annotation_target "copy of" 3 1 "S" = updated_from_linked_neuron "t0" ∨
      linking_annotation_target "copy of" 3 1 "S" ∈ c10_env.linked_annots) :=
  ⟨by decide, by decide, by decide,
   upload_strips_inherited_links ⟨"copy of", false, false, true, true, false⟩
     1 "S" 2 "T" "t0" c10_nrn c10_env "n10"
     [linking_annotation_target "copy of" 3 1 "S", updated_from_linked_neuron "t0"]
     none none false (by decide) (linking_annotation_target "copy of" 3 1 "S")
     (by decide) (by decide)⟩

end PymaidAddons
